import Mathlib

set_option maxRecDepth 100000

/-!
Verification of the `filesystem` Go package (mnewswanger/filesystem).

The package wraps native OS filesystem primitives.  We embed the two
implementation lineages present in the repository:

* `Go.*`    — the value-receiver lineage in `filesystem.go`, whose fallible
  operations return `(value, error)` pairs;
* `Ptr.*`   — the pointer-receiver lineage in `src/unnamed/part_001`.

Native OS behaviour (home-directory expansion via `homedir.Expand`, `os.Stat`,
`ioutil.ReadDir`, `ioutil.ReadFile`, `os.Open`/`Readdir(1)`, `os.MkdirAll`,
`os.Remove`, `os.RemoveAll`) is modelled by a read-only oracle `World`.
Go panics (index out of range, nil-`FileInfo` method call, explicit
`panic(err)`) are modelled by the `Except.error` constructor; a normal return
of the Go function is `Except.ok`.  Side effects are recorded as a list of
`Eff` values naming the native mutating call and the path it was given.

`crypto/sha256` and `encoding/hex` are Go standard library dependencies; they
are embedded by a direct executable implementation of FIPS 180-4 SHA-256 over
byte lists (`SHA256.digest`) and of lowercase hex encoding (`hexBytes` /
`hexEncode`), with machine words as `Nat` reduced modulo `2 ^ 32`.
-/

namespace SHA256

/-- Truncation to a 32-bit word, modelling Go `uint32` arithmetic. -/
def w32 (n : Nat) : Nat := n % 4294967296

/-- Rotate a 32-bit word right by `n` bits (FIPS 180-4 `ROTR`). -/
def rotr (n x : Nat) : Nat := w32 ((x >>> n) ||| (x <<< (32 - n)))

/-- Logical right shift (FIPS 180-4 `SHR`). -/
def shr (n x : Nat) : Nat := x >>> n

/-- FIPS 180-4 `Ch(x,y,z)`; complement taken as xor with the 32-bit mask. -/
def ch (x y z : Nat) : Nat := (x &&& y) ^^^ ((x ^^^ 4294967295) &&& z)

/-- FIPS 180-4 `Maj(x,y,z)`. -/
def maj (x y z : Nat) : Nat := (x &&& y) ^^^ (x &&& z) ^^^ (y &&& z)

/-- FIPS 180-4 `Σ0`. -/
def bigSigma0 (x : Nat) : Nat := rotr 2 x ^^^ rotr 13 x ^^^ rotr 22 x

/-- FIPS 180-4 `Σ1`. -/
def bigSigma1 (x : Nat) : Nat := rotr 6 x ^^^ rotr 11 x ^^^ rotr 25 x

/-- FIPS 180-4 `σ0`. -/
def smallSigma0 (x : Nat) : Nat := rotr 7 x ^^^ rotr 18 x ^^^ shr 3 x

/-- FIPS 180-4 `σ1`. -/
def smallSigma1 (x : Nat) : Nat := rotr 17 x ^^^ rotr 19 x ^^^ shr 10 x

/-- The 64 SHA-256 round constants. -/
def k256 : List Nat :=
  [1116352408, 1899447441, 3049323471, 3921009573, 961987163, 1508970993,
   2453635748, 2870763221, 3624381080, 310598401, 607225278, 1426881987,
   1925078388, 2162078206, 2614888103, 3248222580, 3835390401, 4022224774,
   264347078, 604807628, 770255983, 1249150122, 1555081692, 1996064986,
   2554220882, 2821834349, 2952996808, 3210313671, 3336571891, 3584528711,
   113926993, 338241895, 666307205, 773529912, 1294757372, 1396182291,
   1695183700, 1986661051, 2177026350, 2456956037, 2730485921, 2820302411,
   3259730800, 3345764771, 3516065817, 3600352804, 4094571909, 275423344,
   430227734, 506948616, 659060556, 883997877, 958139571, 1322822218,
   1537002063, 1747873779, 1955562222, 2024104815, 2227730452, 2361852424,
   2428436474, 2756734187, 3204031479, 3329325298]

/-- The eight 32-bit words of the SHA-256 working state. -/
structure Hash8 where
  a : Nat
  b : Nat
  c : Nat
  d : Nat
  e : Nat
  f : Nat
  g : Nat
  h : Nat

/-- The SHA-256 initial hash value. -/
def initH : Hash8 :=
  ⟨1779033703, 3144134277, 1013904242, 2773480762,
    1359893119, 2600822924, 528734635, 1541459225⟩

/-- Big-endian grouping of bytes into 32-bit words. -/
def bytesToWords : List Nat → List Nat
  | a :: b :: c :: d :: rest =>
    (w32 (((a % 256) <<< 24) ||| ((b % 256) <<< 16) ||| ((c % 256) <<< 8) ||| (d % 256)))
      :: bytesToWords rest
  | _ => []

/-- Extension of the 16-word message schedule to 64 words; `rev` holds the
words produced so far, most recent first. -/
def scheduleAux : List Nat → Nat → List Nat
  | rev, 0 => rev.reverse
  | rev, fuel + 1 =>
    scheduleAux
      (w32 (smallSigma1 (rev.getD 1 0) + rev.getD 6 0 + smallSigma0 (rev.getD 14 0)
        + rev.getD 15 0) :: rev) fuel

/-- One SHA-256 compression round. -/
def step (st : Hash8) (k wt : Nat) : Hash8 :=
  let t1 := w32 (st.h + bigSigma1 st.e + ch st.e st.f st.g + k + wt)
  let t2 := w32 (bigSigma0 st.a + maj st.a st.b st.c)
  ⟨w32 (t1 + t2), st.a, st.b, st.c, w32 (st.d + t1), st.e, st.f, st.g⟩

/-- Compression of one 64-byte block into the running hash value. -/
def compress (hv : Hash8) (block : List Nat) : Hash8 :=
  let ws := scheduleAux (bytesToWords block).reverse 48
  let st := (k256.zip ws).foldl (fun s kw => step s kw.1 kw.2) hv
  ⟨w32 (hv.a + st.a), w32 (hv.b + st.b), w32 (hv.c + st.c), w32 (hv.d + st.d),
    w32 (hv.e + st.e), w32 (hv.f + st.f), w32 (hv.g + st.g), w32 (hv.h + st.h)⟩

/-- The bit length of the message as eight big-endian bytes. -/
def lengthBytes (n : Nat) : List Nat :=
  [(n >>> 56) % 256, (n >>> 48) % 256, (n >>> 40) % 256, (n >>> 32) % 256,
   (n >>> 24) % 256, (n >>> 16) % 256, (n >>> 8) % 256, n % 256]

/-- FIPS 180-4 message padding: a `0x80` byte, zeros to 56 mod 64, then the
64-bit big-endian message bit length. -/
def padMsg (msg : List Nat) : List Nat :=
  msg ++ 128 :: (List.replicate ((64 - (msg.length + 9) % 64) % 64) 0
    ++ lengthBytes (8 * msg.length))

/-- Fold `compress` over consecutive 64-byte blocks. -/
def processBlocks : Nat → List Nat → Hash8 → Hash8
  | 0, _, hv => hv
  | fuel + 1, bytes, hv => processBlocks fuel (bytes.drop 64) (compress hv (bytes.take 64))

/-- Big-endian bytes of one 32-bit word. -/
def wordToBytes (x : Nat) : List Nat :=
  [(x >>> 24) % 256, (x >>> 16) % 256, (x >>> 8) % 256, x % 256]

/-- The 32 digest bytes of a final hash value. -/
def digestBytes (hv : Hash8) : List Nat :=
  wordToBytes hv.a ++ wordToBytes hv.b ++ wordToBytes hv.c ++ wordToBytes hv.d ++
    wordToBytes hv.e ++ wordToBytes hv.f ++ wordToBytes hv.g ++ wordToBytes hv.h

/-- SHA-256 of a byte list, as the 32 digest bytes (`sha256.Sum256`). -/
def digest (msg : List Nat) : List Nat :=
  digestBytes (processBlocks ((padMsg msg).length / 64) (padMsg msg) initH)

end SHA256

/-- ASCII code of the lowercase hex digit for `n < 16` (Go `hex` digit table). -/
def hexDigitCode (n : Nat) : Nat := if n < 10 then 48 + n else 87 + n

/-- Lowercase hex codes of a byte list, high nibble first
(`hex.EncodeToString` byte-wise; each byte taken modulo 256). -/
def hexBytes : List Nat → List Nat
  | [] => []
  | b :: bs => hexDigitCode ((b % 256) >>> 4) :: hexDigitCode (b % 16) :: hexBytes bs

/-- Lowercase hex string of a byte list (`hex.EncodeToString`). -/
def hexEncode (bs : List Nat) : String := String.mk ((hexBytes bs).map Char.ofNat)

/-- Go `string(bytes)` conversion, for the byte contents read from a file. -/
def bytesToString (bs : List Nat) : String := String.mk (bs.map Char.ofNat)

/-- Outcome of `os.Stat`: a successful stat classified by `IsDir()`, an error
satisfying `os.IsNotExist`, or any other stat error (permission denied,
`ENOTDIR`, ...).  On any error Go's `os.Stat` returns a nil `FileInfo`. -/
inductive StatResult
  | ok (isDir : Bool)
  | errNotExist
  | errOther (msg : String)

/-- Whether `os.IsNotExist` holds of the error part of a stat outcome
(`false` both for a nil error and for a non-not-exist error). -/
def isNotExistErr : StatResult → Bool
  | StatResult.errNotExist => true
  | _ => false

/-- Error outcome of `File.Readdir(1)`: success, `io.EOF`, or another error. -/
inductive RdErr
  | eof
  | other (msg : String)

/-- A native mutating call performed by an operation, with the path passed
to the OS. -/
inductive Eff
  | mkdirAll (p : String)
  | remove (p : String)
  | removeAll (p : String)
deriving DecidableEq

/-- Read-only oracle for the external collaborators: `homedir.Expand`
(result path and error), `os.Stat`, `ioutil.ReadDir` (entry names in OS
order, possibly partial, with error), `ioutil.ReadFile` (bytes or error),
`os.Open` on a directory, `File.Readdir(1)` (entries read and error), and
the outcomes of the mutating calls `os.MkdirAll` / `os.Remove` /
`os.RemoveAll` (`none` = success, `some msg` = error). -/
structure World where
  expand : String → String × Option String
  stat : String → StatResult
  readDir : String → List String × Option String
  readFile : String → Except String (List Nat)
  openOk : String → Bool
  readdir1 : String → List Unit × Option RdErr
  mkdirAll : String → Option String
  remove : String → Option String
  removeAll : String → Option String

namespace Go

/-- `filesystem.go` `BuildAbsolutePathFromHome`: delegates to `homedir.Expand`. -/
def BuildAbsolutePathFromHome (w : World) (path : String) : String × Option String :=
  w.expand path

/-- `filesystem.go` `CheckExists`: expands, and if expansion succeeded returns
`true` unless the stat error satisfies `os.IsNotExist`. -/
def CheckExists (w : World) (path : String) : Bool × Option String :=
  match (w.expand path).2 with
  | none =>
    match w.stat (w.expand path).1 with
    | StatResult.errNotExist => (false, none)
    | _ => (true, none)
  | some e => (false, some e)

/-- `filesystem.go` `IsDirectory`: expands (ignoring the expansion error),
stats, and evaluates `!os.IsNotExist(err) && stat.IsDir()`; on a stat error
that is not not-exist the `FileInfo` is nil and the `IsDir()` call panics. -/
def IsDirectory (w : World) (path : String) : Except String Bool :=
  match w.stat (w.expand path).1 with
  | StatResult.ok d => Except.ok d
  | StatResult.errNotExist => Except.ok false
  | StatResult.errOther m =>
    Except.error ("runtime error: nil FileInfo after stat error: " ++ m)

/-- `filesystem.go` `IsFile`: as `IsDirectory` with `!stat.IsDir()`. -/
def IsFile (w : World) (path : String) : Except String Bool :=
  match w.stat (w.expand path).1 with
  | StatResult.ok d => Except.ok (!d)
  | StatResult.errNotExist => Except.ok false
  | StatResult.errOther m =>
    Except.error ("runtime error: nil FileInfo after stat error: " ++ m)

/-- `filesystem.go` `IsEmptyDirectory`: expands, re-checks `IsDirectory` on
the expanded path, opens it and reads one entry; an unexpected `Readdir`
error other than `io.EOF` is an explicit `panic(err)` in the source. -/
def IsEmptyDirectory (w : World) (path : String) : Except String Bool :=
  match IsDirectory w (w.expand path).1 with
  | Except.error e => Except.error e
  | Except.ok false => Except.ok false
  | Except.ok true =>
    if w.openOk (w.expand path).1 then
      match w.readdir1 (w.expand path).1 with
      | (_, some (RdErr.other m)) => Except.error ("panic: " ++ m)
      | (contents, _) => Except.ok (contents.length == 0)
    else Except.ok false

/-- `filesystem.go` `CreateDirectory`: note the source tests `if err != nil`
after expansion, so the `IsDirectory` check and the `os.MkdirAll` call are
reached only when expansion FAILED; on successful expansion it immediately
returns `(err == nil, err) = (true, nil)` without any native call. -/
def CreateDirectory (w : World) (path : String) :
    Except String ((Bool × Option String) × List Eff) :=
  match (w.expand path).2 with
  | none => Except.ok ((true, none), [])
  | some e =>
    match IsDirectory w (w.expand path).1 with
    | Except.error pe => Except.error pe
    | Except.ok true => Except.ok ((true, some e), [])
    | Except.ok false =>
      match w.mkdirAll (w.expand path).1 with
      | none => Except.ok ((true, none), [Eff.mkdirAll (w.expand path).1])
      | some me => Except.ok ((false, some me), [Eff.mkdirAll (w.expand path).1])

/-- `filesystem.go` `ForceTrailingSlash`: indexes `path[len(path)-1]`, which
panics on the empty string; otherwise appends `"/"` unless already present. -/
def ForceTrailingSlash (path : String) : Except String String :=
  if path.length = 0 then Except.error "runtime error: index out of range"
  else if path.data.getLast? ≠ some '/' then Except.ok (path ++ "/")
  else Except.ok path

/-- `filesystem.go` `GetDirectoryContents`: calls `ioutil.ReadDir` directly on
the RAW input path (no home expansion in this lineage); appends the entry
names only when the error is nil. -/
def GetDirectoryContents (w : World) (path : String) : List String × Option String :=
  match w.readDir path with
  | (files, none) => (files, none)
  | (_, some e) => ([], some e)

/-- `filesystem.go` `GetFileSHA256Checksum`: expands, requires `IsFile`
(else a `"<path> is not a file"` error), reads the whole file and returns
the lowercase hex SHA-256 digest; a read error is propagated. -/
def GetFileSHA256Checksum (w : World) (path : String) :
    Except String (String × Option String) :=
  match (w.expand path).2 with
  | some e => Except.ok ("", some e)
  | none =>
    match IsFile w (w.expand path).1 with
    | Except.error pe => Except.error pe
    | Except.ok true =>
      match w.readFile (w.expand path).1 with
      | Except.ok contents => Except.ok (hexEncode (SHA256.digest contents), none)
      | Except.error re => Except.ok ("", some re)
    | Except.ok false => Except.ok ("", some ((w.expand path).1 ++ " is not a file"))

/-- `filesystem.go` `LoadFileIfExists`: as the checksum but returning the
contents; the `ioutil.ReadFile` error is assigned to a SHADOWED `err`
(`:=`), so on a read failure the function falls through and returns
`("", nil)` — the outer error is still nil. -/
def LoadFileIfExists (w : World) (path : String) :
    Except String (String × Option String) :=
  match (w.expand path).2 with
  | some e => Except.ok ("", some e)
  | none =>
    match IsFile w (w.expand path).1 with
    | Except.error pe => Except.error pe
    | Except.ok true =>
      match w.readFile (w.expand path).1 with
      | Except.ok contents => Except.ok (bytesToString contents, none)
      | Except.error _ => Except.ok ("", none)
    | Except.ok false => Except.ok ("", some ((w.expand path).1 ++ " is not a file"))

/-- `filesystem.go` `RemoveDirectory`: NO home expansion in this lineage; the
`IsDirectory` check expands internally, but `os.Remove` / `os.RemoveAll`
receive the raw input path. -/
def RemoveDirectory (w : World) (path : String) (recursive : Bool) :
    Except String ((Bool × Option String) × List Eff) :=
  match IsDirectory w path with
  | Except.error pe => Except.error pe
  | Except.ok true =>
    if recursive then
      match w.removeAll path with
      | none => Except.ok ((true, none), [Eff.removeAll path])
      | some e => Except.ok ((false, some e), [Eff.removeAll path])
    else
      match w.remove path with
      | none => Except.ok ((true, none), [Eff.remove path])
      | some e => Except.ok ((false, some e), [Eff.remove path])
  | Except.ok false => Except.ok ((false, some (path ++ " is not a directory")), [])

end Go

namespace Ptr

/-- `part_001` private `isDirectory`: stat only, no expansion; same nil
`FileInfo` panic on a stat error that is not not-exist. -/
def isDirectory (w : World) (p : String) : Except String Bool :=
  match w.stat p with
  | StatResult.ok d => Except.ok d
  | StatResult.errNotExist => Except.ok false
  | StatResult.errOther m =>
    Except.error ("runtime error: nil FileInfo after stat error: " ++ m)

/-- `part_001` private `isFile`: stat only, `!stat.IsDir()`. -/
def isFile (w : World) (p : String) : Except String Bool :=
  match w.stat p with
  | StatResult.ok d => Except.ok (!d)
  | StatResult.errNotExist => Except.ok false
  | StatResult.errOther m =>
    Except.error ("runtime error: nil FileInfo after stat error: " ++ m)

/-- `part_001` `IsDirectory`: `err == nil && fs.isDirectory(path)` with Go's
short-circuit `&&`. -/
def IsDirectory (w : World) (path : String) : Except String Bool :=
  match (w.expand path).2 with
  | some _ => Except.ok false
  | none => isDirectory w (w.expand path).1

/-- `part_001` `IsFile`: `err == nil && fs.isFile(path)`. -/
def IsFile (w : World) (path : String) : Except String Bool :=
  match (w.expand path).2 with
  | some _ => Except.ok false
  | none => isFile w (w.expand path).1

/-- `part_001` `CreateDirectory`: expands, and only on SUCCESSFUL expansion
calls `os.MkdirAll` when the resolved path is not already a directory. -/
def CreateDirectory (w : World) (path : String) :
    Except String ((Bool × Option String) × List Eff) :=
  match (w.expand path).2 with
  | some e => Except.ok ((false, some e), [])
  | none =>
    match isDirectory w (w.expand path).1 with
    | Except.error pe => Except.error pe
    | Except.ok true => Except.ok ((true, none), [])
    | Except.ok false =>
      match w.mkdirAll (w.expand path).1 with
      | none => Except.ok ((true, none), [Eff.mkdirAll (w.expand path).1])
      | some me => Except.ok ((false, some me), [Eff.mkdirAll (w.expand path).1])

/-- `part_001` `ForceTrailingSlash`: guards the empty string explicitly. -/
def ForceTrailingSlash (path : String) : String :=
  if path.length = 0 then "/"
  else if path.data.getLast? ≠ some '/' then path ++ "/"
  else path

/-- `part_001` `GetDirectoryContents`: expands first (the expansion error is
then overwritten by the `ioutil.ReadDir` result), lists the resolved path. -/
def GetDirectoryContents (w : World) (path : String) : List String × Option String :=
  match w.readDir (w.expand path).1 with
  | (files, none) => (files, none)
  | (_, some e) => ([], some e)

/-- `part_001` `RemoveDirectory`: expands, checks the resolved path with the
private `isDirectory`, and removes the RESOLVED path. -/
def RemoveDirectory (w : World) (path : String) (recursive : Bool) :
    Except String ((Bool × Option String) × List Eff) :=
  match (w.expand path).2 with
  | some e => Except.ok ((false, some e), [])
  | none =>
    match isDirectory w (w.expand path).1 with
    | Except.error pe => Except.error pe
    | Except.ok true =>
      if recursive then
        match w.removeAll (w.expand path).1 with
        | none => Except.ok ((true, none), [Eff.removeAll (w.expand path).1])
        | some e => Except.ok ((false, some e), [Eff.removeAll (w.expand path).1])
      else
        match w.remove (w.expand path).1 with
        | none => Except.ok ((true, none), [Eff.remove (w.expand path).1])
        | some e => Except.ok ((false, some e), [Eff.remove (w.expand path).1])
    | Except.ok false =>
      Except.ok ((false, some ((w.expand path).1 ++ " is not a directory")), [])

end Ptr

/-- Whether a predicate call returned normally with value `true`
(a panic outcome is not a `true` return). -/
def isTrueOk : Except String Bool → Bool
  | Except.ok true => true
  | _ => false

/-- Baseline world: expansion is the identity and nothing exists. -/
def wBase : World :=
  { expand := fun s => (s, none)
    stat := fun _ => StatResult.errNotExist
    readDir := fun _ => ([], some "no such file or directory")
    readFile := fun _ => Except.error "no such file or directory"
    openOk := fun _ => false
    readdir1 := fun _ => ([], some RdErr.eof)
    mkdirAll := fun _ => none
    remove := fun _ => some "no such file or directory"
    removeAll := fun _ => none }

/-- World for C2: one path whose stat fails with a non-not-exist error, and
one existing directory whose `Readdir(1)` fails with an I/O error. -/
def w2 : World :=
  { wBase with
    stat := fun s =>
      if s = "/etc/passwd/sub" then StatResult.errOther "not a directory"
      else if s = "/dir" then StatResult.ok true
      else StatResult.errNotExist
    openOk := fun s => s == "/dir"
    readdir1 := fun _ => ([], some (RdErr.other "input/output error")) }

/-- World for C4: stat of `/locked/entry` fails with a permission error. -/
def w4 : World :=
  { wBase with
    stat := fun s =>
      if s = "/locked/entry" then StatResult.errOther "permission denied"
      else StatResult.errNotExist }

/-- World for C5: `/locked/file` is a regular file whose read fails. -/
def w5 : World :=
  { wBase with
    stat := fun s =>
      if s = "/locked/file" then StatResult.ok false else StatResult.errNotExist
    readFile := fun _ => Except.error "permission denied" }

/-- World for C6: `/data/test.file` is a regular file with content "test". -/
def w6 : World :=
  { wBase with
    stat := fun s =>
      if s = "/data/test.file" then StatResult.ok false else StatResult.errNotExist
    readFile := fun s =>
      if s = "/data/test.file" then Except.ok [116, 101, 115, 116]
      else Except.error "no such file or directory" }

/-- World for C7: `~/work` expands to `/home/user/work`, which is an existing
directory; removal succeeds only on the resolved path. -/
def w7 : World :=
  { wBase with
    expand := fun s => if s = "~/work" then ("/home/user/work", none) else (s, none)
    stat := fun s =>
      if s = "/home/user/work" then StatResult.ok true else StatResult.errNotExist
    remove := fun s =>
      if s = "/home/user/work" then none else some "no such file or directory" }

/-- World for C8: `~/docs` expands to `/home/user/docs`; the raw and the
resolved paths list different children. -/
def w8 : World :=
  { wBase with
    expand := fun s => if s = "~/docs" then ("/home/user/docs", none) else (s, none)
    readDir := fun s =>
      if s = "/home/user/docs" then (["resolved-child"], none)
      else if s = "~/docs" then (["raw-child"], none)
      else ([], some "no such file or directory") }

/-- C1: the claim says `CreateDirectory` never skips creation when expansion
succeeds.  In `filesystem.go` the error check after expansion is inverted
(`if err != nil`), so on a successfully expanded, non-existing path it
returns `(true, nil)` performing NO native call; the `part_001` lineage
performs the `os.MkdirAll` call the claim (and the repository's own test,
which checks `CheckExists` right after `CreateDirectory`) requires. -/
theorem claim_c1_create_directory_skips_creation :
    wBase.expand "/tmp/newdir" = ("/tmp/newdir", none) ∧
    wBase.stat "/tmp/newdir" = StatResult.errNotExist ∧
    Go.CreateDirectory wBase "/tmp/newdir" = Except.ok ((true, none), []) ∧
    Ptr.CreateDirectory wBase "/tmp/newdir" =
      Except.ok ((true, none), [Eff.mkdirAll "/tmp/newdir"]) :=
  ⟨rfl, rfl, rfl, rfl⟩

/-- C2: the claim says the boolean predicates never panic and fold every
failure into `false`.  On a stat error that is not not-exist, `IsDirectory`
and `IsFile` call `IsDir()` on a nil `FileInfo` and panic; `filesystem.go`'s
`IsEmptyDirectory` reaches an explicit `panic(err)` on an unexpected
`Readdir` error; and `CheckExists` folds a non-not-exist stat failure into
`true`, not `false`. -/
theorem claim_c2_predicates_crash :
    w2.stat "/etc/passwd/sub" = StatResult.errOther "not a directory" ∧
    Go.IsDirectory w2 "/etc/passwd/sub" =
      Except.error "runtime error: nil FileInfo after stat error: not a directory" ∧
    Go.IsFile w2 "/etc/passwd/sub" =
      Except.error "runtime error: nil FileInfo after stat error: not a directory" ∧
    Go.IsEmptyDirectory w2 "/dir" = Except.error "panic: input/output error" ∧
    Go.CheckExists w2 "/etc/passwd/sub" = (true, none) :=
  ⟨rfl, rfl, rfl, rfl, rfl⟩

/-- C3: the claim says `ForceTrailingSlash` is total with `"" ↦ "/"`.  The
`filesystem.go` version indexes `path[len(path)-1]` and panics on the empty
string (the repository's own `TestTrailingSlash` expects `"/"`); the
`part_001` version satisfies all four test vectors of the claim. -/
theorem claim_c3_force_trailing_slash_empty :
    Go.ForceTrailingSlash "" = Except.error "runtime error: index out of range" ∧
    Ptr.ForceTrailingSlash "" = "/" ∧
    Go.ForceTrailingSlash "/test" = Except.ok "/test/" ∧
    Ptr.ForceTrailingSlash "/test" = "/test/" ∧
    Ptr.ForceTrailingSlash "/test/" = "/test/" ∧
    Ptr.ForceTrailingSlash "/test//" = "/test//" :=
  ⟨rfl, rfl, rfl, rfl, rfl, rfl⟩

/-- C4 counterexample: a stat failure that is not a not-exist error (here a
permission error) makes `CheckExists` return `true`, while the claim demands
`false` on any native stat failure. -/
theorem claim_c4_counterexample :
    w4.expand "/locked/entry" = ("/locked/entry", none) ∧
    w4.stat "/locked/entry" = StatResult.errOther "permission denied" ∧
    Go.CheckExists w4 "/locked/entry" = (true, none) :=
  ⟨rfl, rfl, rfl⟩

/-- C4 amended: `CheckExists` returns `false` with the expansion error when
expansion fails, and otherwise returns `true` exactly when the stat outcome
does not satisfy `os.IsNotExist` — an entry that exists, but also any stat
failure other than not-exist; only definite non-existence maps to `false`. -/
theorem claim_c4_check_exists_amended (w : World) (path : String) :
    (∀ e, (w.expand path).2 = some e → Go.CheckExists w path = (false, some e)) ∧
    ((w.expand path).2 = none →
      Go.CheckExists w path = (!isNotExistErr (w.stat (w.expand path).1), none)) := by
  constructor
  · intro e he
    unfold Go.CheckExists
    rw [he]
  · intro he
    unfold Go.CheckExists
    rw [he]
    cases h : w.stat (w.expand path).1 <;> simp [isNotExistErr]

/-- C4 amended, witness: in the world `w4` the path `/locked/entry` expands
to itself and its stat fails with a permission error, so `CheckExists`
returns `(true, none)`. -/
theorem claim_c4_check_exists_amended_witness :
    Go.CheckExists w4 "/locked/entry" =
      (!isNotExistErr (w4.stat (w4.expand "/locked/entry").1), none) :=
  (claim_c4_check_exists_amended w4 "/locked/entry").2 rfl

/-- C5: the claim says a read failure on an existing regular file yields the
underlying non-nil I/O error.  The `ioutil.ReadFile` error is assigned to a
shadowed `err` in both struct lineages, so `LoadFileIfExists` returns
`("", nil)` instead; the `"<path> is not a file"` half of the claim does
hold (last conjunct). -/
theorem claim_c5_load_file_swallows_read_error :
    w5.stat "/locked/file" = StatResult.ok false ∧
    w5.readFile "/locked/file" = Except.error "permission denied" ∧
    Go.LoadFileIfExists w5 "/locked/file" = Except.ok ("", none) ∧
    Go.LoadFileIfExists w5 "/absent" = Except.ok ("", some "/absent is not a file") :=
  ⟨rfl, rfl, rfl, rfl⟩

/-- C7: the claim says the removal acts on the expanded path.  In
`filesystem.go` the `IsDirectory` check expands internally (so it passes for
`~/work`), but `os.Remove` receives the RAW path `~/work` and fails; the
`part_001` lineage removes the resolved path `/home/user/work`. -/
theorem claim_c7_remove_directory_raw_path :
    w7.expand "~/work" = ("/home/user/work", none) ∧
    w7.stat "/home/user/work" = StatResult.ok true ∧
    w7.stat "~/work" = StatResult.errNotExist ∧
    Go.RemoveDirectory w7 "~/work" false =
      Except.ok ((false, some "no such file or directory"), [Eff.remove "~/work"]) ∧
    Ptr.RemoveDirectory w7 "~/work" false =
      Except.ok ((true, none), [Eff.remove "/home/user/work"]) :=
  ⟨rfl, rfl, rfl, rfl, rfl⟩

/-- C8 counterexample: `filesystem.go`'s `GetDirectoryContents` performs no
home expansion — it lists the children of the raw input `~/docs`
(`["raw-child"]`), not those of the resolved path `/home/user/docs`
(`["resolved-child"]`), refuting "first applies home-shorthand expansion". -/
theorem claim_c8_counterexample :
    w8.expand "~/docs" = ("/home/user/docs", none) ∧
    w8.readDir "/home/user/docs" = (["resolved-child"], none) ∧
    Go.GetDirectoryContents w8 "~/docs" = (["raw-child"], none) ∧
    decide (Go.GetDirectoryContents w8 "~/docs" = (["resolved-child"], none)) = false :=
  ⟨rfl, rfl, rfl, by decide⟩

/-- C8 amended: the `part_001` lineage expands first and then behaves exactly
as `filesystem.go`'s version applied to the resolved path; the
`filesystem.go` lineage applies no expansion and lists the raw input path.
Both return the bare names on a nil `ReadDir` error and an empty (never
partial) list together with the non-nil error otherwise. -/
theorem claim_c8_directory_contents_amended (w : World) (path : String) :
    Ptr.GetDirectoryContents w path = Go.GetDirectoryContents w (w.expand path).1 ∧
    ((w.readDir path).2 = none →
      Go.GetDirectoryContents w path = ((w.readDir path).1, none)) ∧
    (∀ e, (w.readDir path).2 = some e →
      Go.GetDirectoryContents w path = ([], some e)) := by
  refine ⟨?_, ?_, ?_⟩
  · unfold Ptr.GetDirectoryContents Go.GetDirectoryContents
    rcases hrd : w.readDir (w.expand path).1 with ⟨files, err⟩
    rfl
  · intro h
    unfold Go.GetDirectoryContents
    rcases hrd : w.readDir path with ⟨files, err⟩
    rw [hrd] at h
    cases err with
    | none => rfl
    | some e => simp at h
  · intro e h
    unfold Go.GetDirectoryContents
    rcases hrd : w.readDir path with ⟨files, err⟩
    rw [hrd] at h
    cases err with
    | none => simp at h
    | some e2 =>
      simp only [Prod.snd, Option.some.injEq] at h
      subst h
      rfl

/-- C8 amended, witness: listing a non-existing path in `w8` yields the empty
name list together with the non-nil error. -/
theorem claim_c8_directory_contents_amended_witness :
    Go.GetDirectoryContents w8 "/nowhere" = ([], some "no such file or directory") :=
  (claim_c8_directory_contents_amended w8 "/nowhere").2.2 "no such file or directory" rfl

/-- A hex digit code for a nibble is a lowercase hex ASCII code. -/
theorem hexDigitCode_range {n : Nat} (h : n < 16) :
    (48 ≤ hexDigitCode n ∧ hexDigitCode n ≤ 57) ∨
      (97 ≤ hexDigitCode n ∧ hexDigitCode n ≤ 102) := by
  unfold hexDigitCode
  split <;> omega

/-- Every code produced by `hexBytes` is a lowercase hex ASCII code. -/
theorem hexBytes_mem_range (bs : List Nat) :
    ∀ a ∈ hexBytes bs, (48 ≤ a ∧ a ≤ 57) ∨ (97 ≤ a ∧ a ≤ 102) := by
  induction bs with
  | nil => intro a ha; simp [hexBytes] at ha
  | cons b bs ih =>
    intro a ha
    simp only [hexBytes, List.mem_cons] at ha
    rcases ha with rfl | rfl | ha
    · refine hexDigitCode_range ?_
      have hb : b % 256 < 256 := Nat.mod_lt _ (by omega)
      calc (b % 256) >>> 4 = (b % 256) / 16 := by
            rw [Nat.shiftRight_eq_div_pow]
        _ < 16 := Nat.div_lt_of_lt_mul (by omega)
    · exact hexDigitCode_range (Nat.mod_lt _ (by omega))
    · exact ih a ha

/-- `hexBytes` produces two codes per input byte. -/
theorem hexBytes_length (bs : List Nat) : (hexBytes bs).length = 2 * bs.length := by
  induction bs with
  | nil => rfl
  | cons b bs ih => simp only [hexBytes, List.length_cons, ih]; omega

/-- The SHA-256 digest always consists of 32 bytes. -/
theorem sha256_digest_length (msg : List Nat) : (SHA256.digest msg).length = 32 := rfl

/-- The hex string of a byte list has two characters per byte. -/
theorem hexEncode_length (bs : List Nat) : (hexEncode bs).length = 2 * bs.length := by
  have h1 : (hexEncode bs).length = ((hexBytes bs).map Char.ofNat).length := rfl
  rw [h1, List.length_map, hexBytes_length]

/-- C6: with a successfully expanded path (expansion idempotent on the
resolved path), if the resolved path stats as a regular file and the read
yields bytes `c`, `GetFileSHA256Checksum` returns the lowercase hex SHA-256
digest of `c` — a 64-character string of lowercase hex codes — and in
particular the known digest for content "test"; if the resolved path stats
as missing or as a directory it returns `("", "<path> is not a file")`. -/
theorem claim_c6_sha256_checksum (w : World) (path p : String)
    (hx : w.expand path = (p, none)) (hxp : w.expand p = (p, none)) :
    (∀ c, w.stat p = StatResult.ok false → w.readFile p = Except.ok c →
      Go.GetFileSHA256Checksum w path = Except.ok (hexEncode (SHA256.digest c), none) ∧
      (hexEncode (SHA256.digest c)).length = 64 ∧
      (∀ a ∈ hexBytes (SHA256.digest c), (48 ≤ a ∧ a ≤ 57) ∨ (97 ≤ a ∧ a ≤ 102)) ∧
      (c = [116, 101, 115, 116] →
        Go.GetFileSHA256Checksum w path =
          Except.ok ("9f86d081884c7d659a2feaa0c55ad015a3bf4f1b2b0b822cd15d6c15b0f00a08",
            none))) ∧
    ((w.stat p = StatResult.errNotExist ∨ w.stat p = StatResult.ok true) →
      Go.GetFileSHA256Checksum w path = Except.ok ("", some (p ++ " is not a file"))) := by
  constructor
  · intro c hs hr
    have hmain : Go.GetFileSHA256Checksum w path =
        Except.ok (hexEncode (SHA256.digest c), none) := by
      unfold Go.GetFileSHA256Checksum Go.IsFile
      rw [hx]
      simp only
      rw [hxp]
      simp only
      rw [hs, hr]
      rfl
    refine ⟨hmain, ?_, hexBytes_mem_range _, ?_⟩
    · rw [hexEncode_length, sha256_digest_length]
    · intro hc
      subst hc
      rw [hmain]
      rfl
  · intro hs
    unfold Go.GetFileSHA256Checksum Go.IsFile
    rw [hx]
    simp only
    rw [hxp]
    simp only
    rcases hs with hs | hs
    · rw [hs]
    · rw [hs]
      rfl

/-- C6 witness: in `w6` the file `/data/test.file` holds the bytes of
"test"; the checksum operation returns the expected 64-character digest. -/
theorem claim_c6_sha256_checksum_witness :
    Go.GetFileSHA256Checksum w6 "/data/test.file" =
      Except.ok ("9f86d081884c7d659a2feaa0c55ad015a3bf4f1b2b0b822cd15d6c15b0f00a08", none) :=
  (((claim_c6_sha256_checksum w6 "/data/test.file" "/data/test.file" rfl rfl).1
    [116, 101, 115, 116] rfl rfl).2.2.2) rfl

/-- C9: `IsDirectory` and `IsFile` never both return `true` for the same
input in the same world: a successful stat classifies the entry as exactly
one of directory / non-directory, a not-exist error makes both `false`, and
any other stat error makes both panic rather than return.  Proved for both
lineages. -/
theorem claim_c9_is_directory_is_file_exclusive (w : World) (p : String) :
    (isTrueOk (Go.IsDirectory w p) && isTrueOk (Go.IsFile w p)) = false ∧
    (isTrueOk (Ptr.IsDirectory w p) && isTrueOk (Ptr.IsFile w p)) = false := by
  constructor
  · unfold Go.IsDirectory Go.IsFile
    cases h : w.stat (w.expand p).1 with
    | ok d => cases d <;> simp [isTrueOk]
    | errNotExist => simp [isTrueOk]
    | errOther m => simp [isTrueOk]
  · unfold Ptr.IsDirectory Ptr.IsFile Ptr.isDirectory Ptr.isFile
    cases he : (w.expand p).2 with
    | some e => simp [isTrueOk]
    | none =>
      cases h : w.stat (w.expand p).1 with
      | ok d => cases d <;> simp [isTrueOk]
      | errNotExist => simp [isTrueOk]
      | errOther m => simp [isTrueOk]

/-- C10: every `(value, error)`-returning operation of the `filesystem.go`
lineage yields the zero value of its result type whenever the returned error
is non-nil.  The hypotheses pin down the behaviour of the external
collaborators on the relevant inputs: `homedir.Expand` returns the empty
path alongside any expansion error, expanding the empty string succeeds
unchanged, and `os.Stat` of the empty path fails with a not-exist error
(POSIX `ENOENT`). -/
theorem claim_c10_zero_value_on_error (w : World) (path : String)
    (hfe : ∀ s e, (w.expand s).2 = some e → (w.expand s).1 = "")
    (he : w.expand "" = ("", none))
    (hs : w.stat "" = StatResult.errNotExist) :
    (∀ v e effs, Go.CreateDirectory w path = Except.ok ((v, some e), effs) →
      v = false) ∧
    (∀ r v e effs, Go.RemoveDirectory w path r = Except.ok ((v, some e), effs) →
      v = false) ∧
    (∀ v e, Go.LoadFileIfExists w path = Except.ok (v, some e) → v = "") ∧
    (∀ v e, Go.GetFileSHA256Checksum w path = Except.ok (v, some e) → v = "") ∧
    (∀ v e, Go.GetDirectoryContents w path = (v, some e) → v = []) := by
  have hdEmpty : Go.IsDirectory w "" = Except.ok false := by
    unfold Go.IsDirectory
    rw [he]
    simp only
    rw [hs]
  refine ⟨?_, ?_, ?_, ?_, ?_⟩
  · intro v e effs hres
    unfold Go.CreateDirectory at hres
    cases hx : (w.expand path).2 with
    | none => rw [hx] at hres; simp at hres
    | some e0 =>
      rw [hx] at hres
      rw [hfe path e0 hx] at hres
      rw [hdEmpty] at hres
      simp only at hres
      cases hm : w.mkdirAll "" with
      | none => rw [hm] at hres; simp at hres
      | some me => rw [hm] at hres; simp at hres; exact hres.1.1
  · intro r v e effs hres
    unfold Go.RemoveDirectory at hres
    cases hd : Go.IsDirectory w path with
    | error pe => rw [hd] at hres; simp at hres
    | ok b =>
      rw [hd] at hres
      cases b with
      | false => simp at hres; exact hres.1.1
      | true =>
        simp only at hres
        cases r with
        | true =>
          simp only [if_pos] at hres
          cases hm : w.removeAll path with
          | none => rw [hm] at hres; simp at hres
          | some me => rw [hm] at hres; simp at hres; exact hres.1.1
        | false =>
          simp only [Bool.false_eq_true, if_neg] at hres
          cases hm : w.remove path with
          | none => rw [hm] at hres; simp at hres
          | some me => rw [hm] at hres; simp at hres; exact hres.1.1
  · intro v e hres
    unfold Go.LoadFileIfExists at hres
    cases hx : (w.expand path).2 with
    | some e0 => rw [hx] at hres; simp at hres; exact hres.1.symm
    | none =>
      rw [hx] at hres
      cases hf : Go.IsFile w (w.expand path).1 with
      | error pe => rw [hf] at hres; simp at hres
      | ok b =>
        rw [hf] at hres
        cases b with
        | false => simp at hres; exact hres.1.symm
        | true =>
          simp only at hres
          cases hr : w.readFile (w.expand path).1 with
          | ok c => rw [hr] at hres; simp at hres
          | error re => rw [hr] at hres; simp at hres
  · intro v e hres
    unfold Go.GetFileSHA256Checksum at hres
    cases hx : (w.expand path).2 with
    | some e0 => rw [hx] at hres; simp at hres; exact hres.1.symm
    | none =>
      rw [hx] at hres
      cases hf : Go.IsFile w (w.expand path).1 with
      | error pe => rw [hf] at hres; simp at hres
      | ok b =>
        rw [hf] at hres
        cases b with
        | false => simp at hres; exact hres.1.symm
        | true =>
          simp only at hres
          cases hr : w.readFile (w.expand path).1 with
          | ok c => rw [hr] at hres; simp at hres
          | error re => rw [hr] at hres; simp at hres; exact hres.1.symm
  · intro v e hres
    unfold Go.GetDirectoryContents at hres
    rcases hrd : w.readDir path with ⟨files, err⟩
    rw [hrd] at hres
    cases err with
    | none => simp at hres
    | some e2 => simp at hres; exact hres.1

/-- C10 witness: in the baseline world, listing a non-existing path returns
the empty list with a non-nil error, and the theorem instance gives the
zero-value fact for that outcome. -/
theorem claim_c10_zero_value_on_error_witness :
    Go.GetDirectoryContents wBase "/absent" = ([], some "no such file or directory") ∧
    ([] : List String) = [] :=
  ⟨rfl,
    (claim_c10_zero_value_on_error wBase "/absent"
      (fun _ _ h => Option.noConfusion h) rfl rfl).2.2.2.2 []
      "no such file or directory" rfl⟩
